import Mathlib

/-!
Shallow embedding of `src/python_script/data_loader.py` (the data_loader
module of the 7-ELEVEN XML → CSV converter).

Modelling conventions:
* Python `float` values are modelled by `PyFloat`: an exact rational for
  finite values plus `inf`, `ninf` and `nan`.  Arithmetic on finite values is
  exact rational arithmetic; every operation the program performs on the
  coordinate path (division by 1,000,000, absolute value, order comparisons)
  is exact on the decimal data the program handles, so the rational model
  agrees with IEEE double semantics on all inputs appearing in the claims.
* Python strings are Lean `String`s; `str.strip()` is `pyStrip` (ASCII
  whitespace; the Unicode-only whitespace code points Python additionally
  strips play no role in any claim).
* CPython's `float(s)` string conversion is modelled by `pyFloatOfString`,
  covering ASCII numerals with optional sign, fraction, exponent and
  digit-group underscores, and the case-insensitive special spellings
  inf / infinity / nan.
* A `RawFieldMapping` (a Python dict read with `.get(key, "")`) is modelled
  as a total function `String → String`; a missing key is the key mapped
  to `""`, exactly the observable behaviour of `.get(key, "")`.
-/

/-- A Python `float` value: exact finite rational, infinities, or NaN. -/
inductive PyFloat where
  | finite (q : ℚ)
  | inf
  | ninf
  | nan
deriving DecidableEq, Repr

/-- IEEE `<` on `PyFloat`: any comparison involving NaN is false. -/
def pyLt : PyFloat → PyFloat → Bool
  | .finite a, .finite b => decide (a < b)
  | .finite _, .inf => true
  | .ninf, .finite _ => true
  | .ninf, .inf => true
  | _, _ => false

/-- IEEE `==` on `PyFloat`: NaN is not equal to anything, itself included. -/
def pyEqF : PyFloat → PyFloat → Bool
  | .finite a, .finite b => a == b
  | .inf, .inf => true
  | .ninf, .ninf => true
  | _, _ => false

/-- IEEE `<=` on `PyFloat`. -/
def pyLe (a b : PyFloat) : Bool := pyLt a b || pyEqF a b

/-- IEEE `>` on `PyFloat`. -/
def pyGt (a b : PyFloat) : Bool := pyLt b a

/-- Python `abs` on floats (`abs(nan)` is NaN, `abs(-inf)` is `inf`). -/
def pyAbs : PyFloat → PyFloat
  | .finite q => .finite |q|
  | .inf => .inf
  | .ninf => .inf
  | .nan => .nan

/-- The program's only float division, `v / 1_000_000.0`
(`data_loader.py` lines 50 and 52).  Exact on finite rationals;
`inf/1e6 = inf`, `nan/1e6 = nan` as in IEEE arithmetic.
(`Rat.divInt` is used so that the definition evaluates inside the kernel;
`pyDivMillion_finite` below identifies it with division by 1,000,000.) -/
def pyDivMillion : PyFloat → PyFloat
  | .finite q => .finite (Rat.divInt q.num (q.den * 1000000))
  | .inf => .inf
  | .ninf => .ninf
  | .nan => .nan

/-- Finiteness of a `PyFloat`. -/
def isFiniteF : PyFloat → Bool
  | .finite _ => true
  | _ => false

/-- ASCII decimal digits to a natural number (most significant first). -/
def digitsToNat (l : List Char) : ℕ :=
  l.foldl (fun a c => a * 10 + (c.toNat - 48)) 0

/-- Continue a CPython digit part after its first digit: further digits, with
single underscores allowed only between digits (`1_000` is legal, `1__0` and
`1_` are not).  Returns the digits collected and the unconsumed rest. -/
def digitPartAux : List Char → List Char × List Char
  | [] => ([], [])
  | [c] => if c.isDigit then ([c], []) else ([], [c])
  | c :: d :: t =>
    if c.isDigit then
      let r := digitPartAux (d :: t)
      (c :: r.1, r.2)
    else if c = '_' ∧ d.isDigit then
      let r := digitPartAux t
      (d :: r.1, r.2)
    else ([], c :: d :: t)

/-- A CPython digit part: one or more ASCII digits with optional single
underscores between digits.  `none` when the input does not start with a
digit. -/
def digitPart : List Char → Option (List Char × List Char)
  | [] => none
  | c :: t =>
    if c.isDigit then
      let r := digitPartAux t
      some (c :: r.1, r.2)
    else none

/-- Exact value of an integer digit string `id` followed by a fraction digit
string `fd`: `id.fd = (id * 10^|fd| + fd) / 10^|fd|`.  Built with `mkRat` so
the kernel can evaluate it. -/
def mantissaVal (id fd : List Char) : ℚ :=
  mkRat (digitsToNat id * 10 ^ fd.length + digitsToNat fd) (10 ^ fd.length)

/-- Mantissa of a CPython float literal: `digits [. digits?]` or `. digits`.
Returns its exact value and the unconsumed rest. -/
def parseMantissa (l : List Char) : Option (ℚ × List Char) :=
  match l with
  | '.' :: t =>
    match digitPart t with
    | some (fd, r) => some (mantissaVal [] fd, r)
    | none => none
  | _ =>
    match digitPart l with
    | some (id, r1) =>
      match r1 with
      | '.' :: t =>
        match digitPart t with
        | some (fd, r2) => some (mantissaVal id fd, r2)
        | none => some (mantissaVal id [], t)
      | _ => some (mantissaVal id [], r1)
    | none => none

/-- Apply a decimal exponent to a mantissa: `m * 10^e` or `m / 10^e`
(expressed with `Rat.divInt` so the kernel can evaluate it). -/
def applyExp (m : ℚ) (epos : Bool) (e : ℕ) : ℚ :=
  if epos then Rat.divInt (m.num * 10 ^ e) m.den
  else Rat.divInt m.num (m.den * 10 ^ e)

/-- Exponent tail of a CPython float literal: empty, or `e`/`E`, an optional
sign and a digit part consuming the whole rest.  Returns sign and magnitude. -/
def parseExpTail (l : List Char) : Option (Bool × ℕ) :=
  match l with
  | [] => some (true, 0)
  | c :: t =>
    if c = 'e' ∨ c = 'E' then
      let st : Bool × List Char :=
        match t with
        | '+' :: t' => (true, t')
        | '-' :: t' => (false, t')
        | _ => (true, t)
      match digitPart st.2 with
      | some (ds, r) => if r.isEmpty then some (st.1, digitsToNat ds) else none
      | none => none
    else none

/-- CPython `float(s)` on an already-stripped, non-empty string: optional
sign, then case-insensitively `inf`/`infinity`/`nan`, or a decimal numeral
with optional fraction and exponent. -/
def pyFloatOfString (s : String) : Option PyFloat :=
  let l := s.data
  let sl : Bool × List Char :=
    match l with
    | '+' :: t => (true, t)
    | '-' :: t => (false, t)
    | _ => (true, l)
  let low := sl.2.map Char.toLower
  if low = "inf".data ∨ low = "infinity".data then
    some (if sl.1 then .inf else .ninf)
  else if low = "nan".data then some .nan
  else
    match parseMantissa sl.2 with
    | some (m, r) =>
      match parseExpTail r with
      | some (epos, e) =>
        some (.finite (if sl.1 then applyExp m epos e else -(applyExp m epos e)))
      | none => none
    | none => none

/-- Python `str.strip()` on a character list: drop whitespace from both
ends. -/
def pyStripList (l : List Char) : List Char :=
  ((l.dropWhile Char.isWhitespace).reverse.dropWhile Char.isWhitespace).reverse

/-- Python `str.strip()`. -/
def pyStrip (s : String) : String := ⟨pyStripList s.data⟩

/-- `_parse_float` (`data_loader.py` lines 27-34): strip, return absent on
empty, otherwise `float(s)` with `ValueError` mapped to absent. -/
def parse_float (s : String) : Option PyFloat :=
  let t := pyStrip s
  if t = "" then none else pyFloatOfString t

/-- `_normalize_lng_lat` (`data_loader.py` lines 37-55): parse both raw
strings; if either is absent return `(absent, absent)`; otherwise divide each
axis by 1,000,000 exactly when its absolute value exceeds 1000. -/
def normalize_lng_lat (x_raw y_raw : String) : Option PyFloat × Option PyFloat :=
  match parse_float x_raw, parse_float y_raw with
  | some x0, some y0 =>
    let x := if pyGt (pyAbs x0) (.finite 1000) then pyDivMillion x0 else x0
    let y := if pyGt (pyAbs y0) (.finite 1000) then pyDivMillion y0 else y0
    (some x, some y)
  | _, _ => (none, none)

/-- Does `n` occur at the head of `l`? (`List.isPrefixOf` for chars, spelled
out so every proof can unfold it.) -/
def leadsWith : List Char → List Char → Bool
  | [], _ => true
  | _ :: _, [] => false
  | a :: m, b :: l => a = b && leadsWith m l

/-- Does `n` occur as a contiguous substring of `l`? -/
def hasSub (n : List Char) : List Char → Bool
  | [] => n.isEmpty
  | c :: t => leadsWith n (c :: t) || hasSub n t

/-- Python's `sub in hay` on strings: contiguous-substring containment. -/
def strContains (hay sub : String) : Bool := hasSub sub.data hay.data

/-- The fixed service marker `"02廁所"` from `data_loader.py` line 98. -/
def toiletMarker : String := "02廁所"

/-- A `RawFieldMapping`: the per-element dict, read through
`store.get(key, "")`, modelled as a total map from key to text. -/
def Store : Type := String → String

/-- The canonical output row (`prisma_row`, `data_loader.py` lines 113-132).
`lat`/`lng` are `none` when absent, which the CSV layer renders as the empty
cell, exactly as Python's `lat if lat is not None else ""`. -/
structure PrismaRow where
  name : String
  description : String
  typ : String
  lat : Option PyFloat
  lng : Option PyFloat
  floor : String
  hasTissue : Bool
  hasDryer : Bool
  hasSeat : Bool
  hasDiaperTable : Bool
  hasWaterDispenser : Bool
  hasAutoDoor : Bool
  hasHandrail : Bool
deriving DecidableEq, Repr

/-- The audit row (`debug_row`, `data_loader.py` lines 134-145). -/
structure DebugRow where
  source : String
  poiid : String
  poiname : String
  address : String
  telno : String
  op_time : String
  services : String
  x_raw : String
  y_raw : String
  has_toilet_service_tag : Bool
deriving DecidableEq, Repr

/-- `build_location_row` (`data_loader.py` lines 84-147): map one raw field
mapping to the canonical row and the audit row. -/
def build_location_row (store : Store) : PrismaRow × DebugRow :=
  let poiid := store "poiid"
  let name := pyStrip (store "poiname")
  let address := pyStrip (store "address")
  let tel := pyStrip (store "telno")
  let op_time := pyStrip (store "op_time")
  let services := pyStrip (store "storeimagetitle")
  let xy := normalize_lng_lat (store "x") (store "y")
  let has_toilet := strContains services toiletMarker
  let desc_parts : List String :=
    (if address ≠ "" then ["地址：" ++ address] else []) ++
    (if tel ≠ "" then ["電話：" ++ tel] else []) ++
    (if op_time ≠ "" then ["營業時間：" ++ op_time] else [])
  let description : Option String :=
    if desc_parts.isEmpty then none
    else some (String.intercalate "；" desc_parts ++ "；")
  (⟨if name ≠ "" then "7-ELEVEN " ++ name else "7-ELEVEN",
    description.getD "",
    "TOILET",
    xy.2, xy.1,
    "", false, false, false, false, false, false, false⟩,
   ⟨"7-ELEVEN iMapSDKOutput", poiid, name, address, tel, op_time, services,
    store "x", store "y", has_toilet⟩)

/-- The four run counters (`total`, `written`, `missing_coord`,
`suspicious_coord` of `export_csv`). -/
structure RunStatistics where
  total : ℕ
  written : ℕ
  missing_coord : ℕ
  suspicious_coord : ℕ
deriving DecidableEq, Repr

/-- The Taiwan bounding-box test `20.0 <= lat_f <= 27.0 and 118.0 <= lng_f
<= 123.5` (`data_loader.py` line 213), with IEEE comparison semantics. -/
def inTaiwanBox (latf lngf : PyFloat) : Bool :=
  pyLe (.finite 20) latf && pyLe latf (.finite 27) &&
  pyLe (.finite 118) lngf && pyLe lngf (.finite (mkRat 247 2))

/-- The body of the `try` at `data_loader.py` lines 210-216: both cells are
re-read as floats and the row is suspicious when `not (box)`.  The wildcard
case is the swallowed `except` (a parse failure increments nothing); it is
unreachable here because the branch runs only when both cells are
non-empty, i.e. already hold floats. -/
def suspiciousCheck : Option PyFloat → Option PyFloat → Bool
  | some latf, some lngf => !inTaiwanBox latf lngf
  | _, _ => false

/-- One iteration of the `export_csv` loop (`data_loader.py` lines
195-222) acting on (counters so far, rows written so far). -/
def exportStep (only_toilets : Bool)
    (acc : RunStatistics × List (PrismaRow × DebugRow)) (store : Store) :
    RunStatistics × List (PrismaRow × DebugRow) :=
  let pr := (build_location_row store).1
  let dr := (build_location_row store).2
  let stats1 : RunStatistics := { acc.1 with total := acc.1.total + 1 }
  if only_toilets && !strContains dr.services toiletMarker then (stats1, acc.2)
  else
    let stats2 : RunStatistics :=
      if pr.lat.isNone || pr.lng.isNone then
        { stats1 with missing_coord := stats1.missing_coord + 1 }
      else if suspiciousCheck pr.lat pr.lng then
        { stats1 with suspicious_coord := stats1.suspicious_coord + 1 }
      else stats1
    ({ stats2 with written := stats2.written + 1 }, acc.2 ++ [(pr, dr)])

/-- The whole `export_csv` loop over the stream of extracted records (the
XML traversal `iter_711_stores` is abstracted as the list of raw field
mappings it yields, in document order). -/
def export_csv (stores : List Store) (only_toilets : Bool) :
    RunStatistics × List (PrismaRow × DebugRow) :=
  stores.foldl (exportStep only_toilets) (⟨0, 0, 0, 0⟩, [])

/-- One CSV cell before serialization: the Python objects the program puts
into a row dict are strings, floats and booleans. -/
inductive Cell where
  | s (v : String)
  | fl (v : PyFloat)
  | b (v : Bool)
deriving DecidableEq, Repr

/-- A nullable coordinate as stored in the row dict:
`lat if lat is not None else ""` (`data_loader.py` lines 118-119). -/
def coordCell : Option PyFloat → Cell
  | none => .s ""
  | some v => .fl v

/-- The canonical column names, in the fixed order of `prisma_fields`
(`data_loader.py` lines 162-176). -/
def prisma_fields : List String :=
  ["name", "description", "type", "lat", "lng", "floor", "hasTissue",
   "hasDryer", "hasSeat", "hasDiaperTable", "hasWaterDispenser",
   "hasAutoDoor", "hasHandrail"]

/-- The audit column names, in the fixed order of `debug_fields`
(`data_loader.py` lines 177-188). -/
def debug_fields : List String :=
  ["source", "poiid", "poiname", "address", "telno", "op_time", "services",
   "x_raw", "y_raw", "has_toilet_service_tag"]

/-- The values of a canonical row in `prisma_fields` order. -/
def prismaCells (r : PrismaRow) : List Cell :=
  [.s r.name, .s r.description, .s r.typ, coordCell r.lat, coordCell r.lng,
   .s r.floor, .b r.hasTissue, .b r.hasDryer, .b r.hasSeat,
   .b r.hasDiaperTable, .b r.hasWaterDispenser, .b r.hasAutoDoor,
   .b r.hasHandrail]

/-- The values of an audit row in `debug_fields` order. -/
def debugCells (d : DebugRow) : List Cell :=
  [.s d.source, .s d.poiid, .s d.poiname, .s d.address, .s d.telno,
   .s d.op_time, .s d.services, .s d.x_raw, .s d.y_raw,
   .b d.has_toilet_service_tag]

/-- A written CSV data row: `row = dict(prisma_row); if include_debug:
row.update(debug_row)`, serialized by `DictWriter` in `fieldnames` order
(`data_loader.py` lines 189, 218-221). -/
def rowCells (include_debug : Bool) (p : PrismaRow × DebugRow) : List Cell :=
  prismaCells p.1 ++ (if include_debug then debugCells p.2 else [])

/-- The CSV file the run produces: the header row and the data rows. -/
structure CsvOutput where
  header : List String
  dataRows : List (List Cell)
deriving DecidableEq, Repr

/-- One whole run of `export_csv` (`data_loader.py` lines 150-234).
`printedStats` are the four counters the summary prints after the loop;
`retval` is the Python function's return value — the function is annotated
`-> None` and has no `return` statement, so it is `none`. -/
structure ExportRun where
  output : CsvOutput
  printedStats : RunStatistics
  retval : Option RunStatistics
deriving DecidableEq, Repr

/-- Assemble a whole `export_csv` run from the extracted record stream. -/
def export_run (stores : List Store) (only_toilets include_debug : Bool) :
    ExportRun :=
  let r := export_csv stores only_toilets
  { output :=
      { header := prisma_fields ++ (if include_debug then debug_fields else []),
        dataRows := r.2.map (rowCells include_debug) },
    printedStats := r.1,
    retval := none }

/-- The loop's keep/skip decision (`data_loader.py` lines 199-202): a record
is kept unless `only_toilets` is set and the service text lacks the marker. -/
def keptRec (only_toilets : Bool) (st : Store) : Bool :=
  !(only_toilets && !strContains (build_location_row st).2.services toiletMarker)

/-- The records the suspicious-coordinate counter counts: kept by the
filter, both coordinate cells non-empty, and the pair outside the Taiwan
bounding box. -/
def suspiciousRec (only_toilets : Bool) (st : Store) : Bool :=
  keptRec only_toilets st &&
  ((build_location_row st).1.lat).isSome &&
  ((build_location_row st).1.lng).isSome &&
  !inTaiwanBox (((build_location_row st).1.lat).getD .nan)
    (((build_location_row st).1.lng).getD .nan)

/-- The empty raw field mapping: every `.get(key, "")` misses. -/
def emptyStore : Store := fun _ => ""

/-- A raw field mapping with `Y` present but `X` empty. -/
def missingXStore : Store := fun k => if k = "y" then "25" else ""

/-- A raw field mapping whose `X` text is the non-numeral string `"inf"`
(accepted by CPython `float`). -/
def infCoordStore : Store :=
  fun k => if k = "x" then "inf" else if k = "y" then "25" else ""

theorem pyDivMillion_finite (q : ℚ) :
    pyDivMillion (.finite q) = .finite (q / 1000000) := by
  show PyFloat.finite (Rat.divInt q.num (q.den * 1000000)) = _
  congr 1
  rw [Rat.divInt_eq_div]
  push_cast
  rw [div_mul_eq_div_div, Rat.num_div_den]

theorem pyLt_eq_false_of_pyLe (x y : PyFloat) (h : pyLe x y = true) :
    pyLt y x = false := by
  cases x <;> cases y <;>
    simp_all [pyLe, pyLt, pyEqF, not_lt]
  rename_i a b
  rcases h with h | h
  · exact h.le
  · exact h.le

theorem leadsWith_iff (n l : List Char) :
    leadsWith n l = true ↔ ∃ t, l = n ++ t := by
  induction n generalizing l with
  | nil => simp [leadsWith]
  | cons a m ih =>
    cases l with
    | nil => simp [leadsWith]
    | cons b bs =>
      simp only [leadsWith, Bool.and_eq_true, decide_eq_true_eq, ih,
        List.cons_append, List.cons.injEq]
      constructor
      · rintro ⟨rfl, t, rfl⟩; exact ⟨t, rfl, rfl⟩
      · rintro ⟨t, rfl, rfl⟩; exact ⟨rfl, t, rfl⟩

theorem hasSub_iff (n l : List Char) :
    hasSub n l = true ↔ ∃ s t, l = s ++ n ++ t := by
  induction l with
  | nil =>
    constructor
    · intro h
      cases n with
      | nil => exact ⟨[], [], rfl⟩
      | cons a m => simp [hasSub, List.isEmpty] at h
    · rintro ⟨s, u, h⟩
      rcases List.append_eq_nil.mp h.symm with ⟨hsn, rfl⟩
      rcases List.append_eq_nil.mp hsn with ⟨rfl, rfl⟩
      rfl
  | cons c t ih =>
    simp only [hasSub, Bool.or_eq_true, leadsWith_iff, ih]
    constructor
    · rintro (⟨u, h⟩ | ⟨s, u, rfl⟩)
      · exact ⟨[], u, by simpa using h⟩
      · exact ⟨c :: s, u, rfl⟩
    · rintro ⟨s, u, h⟩
      cases s with
      | nil => exact Or.inl ⟨u, by simpa using h⟩
      | cons x xs =>
        rw [List.cons_append] at h
        injection h with h1 h2
        subst h1
        exact Or.inr ⟨xs, u, h2⟩

theorem hasSub_reverse (n l : List Char) :
    hasSub n.reverse l.reverse = hasSub n l := by
  rw [Bool.eq_iff_iff, hasSub_iff, hasSub_iff]
  constructor
  · rintro ⟨s, u, h⟩
    refine ⟨u.reverse, s.reverse, ?_⟩
    have h2 := congrArg List.reverse h
    simpa [List.append_assoc] using h2
  · rintro ⟨s, u, rfl⟩
    exact ⟨u.reverse, s.reverse, by simp [List.append_assoc]⟩

theorem hasSub_dropWhile (a : Char) (m l : List Char)
    (h : a.isWhitespace = false) :
    hasSub (a :: m) (l.dropWhile Char.isWhitespace) = hasSub (a :: m) l := by
  induction l with
  | nil => rfl
  | cons c t ih =>
    rw [List.dropWhile_cons]
    by_cases hc : Char.isWhitespace c
    · rw [if_pos hc, ih]
      have hl : leadsWith (a :: m) (c :: t) = false := by
        have hac : a ≠ c := fun hh => by simp [hh, hc] at h
        simp [leadsWith, hac]
      show hasSub (a :: m) t = hasSub (a :: m) (c :: t)
      rw [hasSub, hl]
      simp
    · rw [if_neg hc]

theorem hasSub_marker_pyStripList (l : List Char) :
    hasSub toiletMarker.data (pyStripList l) = hasSub toiletMarker.data l := by
  have h1 : ∀ x : List Char, hasSub toiletMarker.data x.reverse
      = hasSub toiletMarker.data.reverse x := by
    intro x
    conv_lhs => rw [← List.reverse_reverse toiletMarker.data]
    rw [hasSub_reverse]
  have h2 : ∀ x : List Char,
      hasSub toiletMarker.data.reverse (x.dropWhile Char.isWhitespace)
        = hasSub toiletMarker.data.reverse x := fun x =>
    hasSub_dropWhile '所' ['廁', '2', '0'] x (by decide)
  have h3 : ∀ x : List Char,
      hasSub toiletMarker.data (x.dropWhile Char.isWhitespace)
        = hasSub toiletMarker.data x := fun x =>
    hasSub_dropWhile '0' ['2', '廁', '所'] x (by decide)
  show hasSub toiletMarker.data
      (((l.dropWhile Char.isWhitespace).reverse.dropWhile Char.isWhitespace).reverse)
      = hasSub toiletMarker.data l
  rw [h1, h2, ← h1, List.reverse_reverse, h3]

theorem strContains_pyStrip_marker (s : String) :
    strContains (pyStrip s) toiletMarker = strContains s toiletMarker := by
  show hasSub toiletMarker.data (pyStrip s).data = hasSub toiletMarker.data s.data
  have h : (pyStrip s).data = pyStripList s.data := rfl
  rw [h, hasSub_marker_pyStripList]


theorem exportStep_total (ot : Bool)
    (acc : RunStatistics × List (PrismaRow × DebugRow)) (st : Store) :
    (exportStep ot acc st).1.total = acc.1.total + 1 := by
  unfold exportStep
  dsimp only
  split
  · rfl
  · split
    · rfl
    · split <;> rfl

theorem exportStep_written (ot : Bool)
    (acc : RunStatistics × List (PrismaRow × DebugRow)) (st : Store) :
    (exportStep ot acc st).1.written
      = acc.1.written + (if keptRec ot st then 1 else 0) := by
  unfold exportStep keptRec
  dsimp only
  by_cases h : (ot && !strContains (build_location_row st).2.services toiletMarker) = true
  · rw [if_pos h, if_neg (by simp [h])]
    rfl
  · have hk : (!(ot && !strContains (build_location_row st).2.services toiletMarker)) = true := by
      cases hb : ot <;> simp_all
    rw [if_neg h, if_pos hk]
    dsimp only
    split
    · rfl
    · split <;> rfl

theorem exportStep_rows (ot : Bool)
    (acc : RunStatistics × List (PrismaRow × DebugRow)) (st : Store) :
    (exportStep ot acc st).2
      = acc.2 ++ (if keptRec ot st then [build_location_row st] else []) := by
  unfold exportStep keptRec
  dsimp only
  by_cases h : (ot && !strContains (build_location_row st).2.services toiletMarker) = true
  · rw [if_pos h, if_neg (by simp [h])]
    simp
  · have hk : (!(ot && !strContains (build_location_row st).2.services toiletMarker)) = true := by
      cases hb : ot <;> simp_all
    rw [if_neg h, if_pos hk]

theorem exportStep_suspicious (ot : Bool)
    (acc : RunStatistics × List (PrismaRow × DebugRow)) (st : Store) :
    (exportStep ot acc st).1.suspicious_coord
      = acc.1.suspicious_coord + (if suspiciousRec ot st then 1 else 0) := by
  unfold exportStep suspiciousRec keptRec
  dsimp only
  by_cases h : (ot && !strContains (build_location_row st).2.services toiletMarker) = true
  · have hk : (!(ot && !strContains (build_location_row st).2.services toiletMarker)) = false := by
      simp [h]
    rw [if_pos h, hk]
    simp
  · have hk : (!(ot && !strContains (build_location_row st).2.services toiletMarker)) = true := by
      cases hb : ot <;> simp_all
    rw [if_neg h, hk]
    cases hlat : (build_location_row st).1.lat with
    | none => simp [hlat]
    | some a =>
      cases hlng : (build_location_row st).1.lng with
      | none => simp [hlat, hlng]
      | some b =>
        by_cases hbox : inTaiwanBox a b = true
        · simp [hlat, hlng, hbox, suspiciousCheck]
        · simp [hlat, hlng, Bool.not_eq_true .. ▸ hbox, suspiciousCheck]

theorem export_foldl_total (ot : Bool) (l : List Store) :
    ∀ acc, (List.foldl (exportStep ot) acc l).1.total = acc.1.total + l.length := by
  induction l with
  | nil => intro acc; simp
  | cons st rest ih =>
    intro acc
    rw [List.foldl_cons, ih, exportStep_total]
    simp
    omega

theorem export_foldl_written (ot : Bool) (l : List Store) :
    ∀ acc, (List.foldl (exportStep ot) acc l).1.written
      = acc.1.written + (l.filter (keptRec ot)).length := by
  induction l with
  | nil => intro acc; simp
  | cons st rest ih =>
    intro acc
    rw [List.foldl_cons, ih, exportStep_written, List.filter_cons]
    by_cases h : keptRec ot st = true
    · simp [h]; omega
    · simp [h]

theorem export_foldl_rows (ot : Bool) (l : List Store) :
    ∀ acc, (List.foldl (exportStep ot) acc l).2
      = acc.2 ++ (l.filter (keptRec ot)).map build_location_row := by
  induction l with
  | nil => intro acc; simp
  | cons st rest ih =>
    intro acc
    rw [List.foldl_cons, ih, exportStep_rows, List.filter_cons]
    by_cases h : keptRec ot st = true
    · simp [h]
    · simp [h]

theorem export_foldl_suspicious (ot : Bool) (l : List Store) :
    ∀ acc, (List.foldl (exportStep ot) acc l).1.suspicious_coord
      = acc.1.suspicious_coord + (l.filter (suspiciousRec ot)).length := by
  induction l with
  | nil => intro acc; simp
  | cons st rest ih =>
    intro acc
    rw [List.foldl_cons, ih, exportStep_suspicious, List.filter_cons]
    by_cases h : suspiciousRec ot st = true
    · simp [h]; omega
    · simp [h]

/-- C1: if parsing either raw coordinate yields absent, `_normalize_lng_lat`
returns `(absent, absent)` — never exactly one present — and the canonical
row's lat and lng cells are both empty. -/
theorem C1_coords_both_or_neither (store : Store)
    (h : parse_float (store "x") = none ∨ parse_float (store "y") = none) :
    normalize_lng_lat (store "x") (store "y") = (none, none) ∧
    (build_location_row store).1.lat = none ∧
    (build_location_row store).1.lng = none ∧
    coordCell (build_location_row store).1.lat = .s "" ∧
    coordCell (build_location_row store).1.lng = .s "" := by
  have hn : normalize_lng_lat (store "x") (store "y") = (none, none) := by
    unfold normalize_lng_lat
    rcases h with h | h
    · rw [h]
    · rw [h]
      cases parse_float (store "x") <;> rfl
  refine ⟨hn, ?_, ?_, ?_, ?_⟩ <;> simp [build_location_row, hn, coordCell]

theorem C1_coords_both_or_neither_witness :
    (parse_float (missingXStore "x") = none ∨
      parse_float (missingXStore "y") = none) ∧
    (normalize_lng_lat (missingXStore "x") (missingXStore "y") = (none, none) ∧
     (build_location_row missingXStore).1.lat = none ∧
     (build_location_row missingXStore).1.lng = none ∧
     coordCell (build_location_row missingXStore).1.lat = .s "" ∧
     coordCell (build_location_row missingXStore).1.lng = .s "") :=
  ⟨Or.inl (by decide), C1_coords_both_or_neither missingXStore (Or.inl (by decide))⟩

/-- C2: each successfully parsed axis value `v` is rescaled to `v/1,000,000`
exactly when `abs(v) > 1000` and passed through unchanged otherwise,
independently per axis; in particular `normalize("121532554", "25017604")`
returns `(121.532554, 25.017604)` exactly. -/
theorem C2_magnitude_rescale (xr yr : String) (vx vy : PyFloat)
    (hx : parse_float xr = some vx) (hy : parse_float yr = some vy) :
    normalize_lng_lat xr yr =
      (some (if pyGt (pyAbs vx) (.finite 1000) then pyDivMillion vx else vx),
       some (if pyGt (pyAbs vy) (.finite 1000) then pyDivMillion vy else vy)) ∧
    (∀ q : ℚ, pyDivMillion (.finite q) = .finite (q / 1000000)) ∧
    normalize_lng_lat "121532554" "25017604" =
      (some (.finite (121.532554 : ℚ)), some (.finite (25.017604 : ℚ))) := by
  refine ⟨?_, pyDivMillion_finite, ?_⟩
  · unfold normalize_lng_lat
    rw [hx, hy]
  · rw [show (121.532554 : ℚ) = mkRat 121532554 1000000 from by
        norm_num [Rat.mkRat_eq_div],
      show (25.017604 : ℚ) = mkRat 25017604 1000000 from by
        norm_num [Rat.mkRat_eq_div]]
    decide

theorem C2_magnitude_rescale_witness :
    parse_float "121532554" = some (.finite 121532554) ∧
    parse_float "25017604" = some (.finite 25017604) ∧
    (normalize_lng_lat "121532554" "25017604" =
      (some (if pyGt (pyAbs (.finite 121532554)) (.finite 1000)
             then pyDivMillion (.finite 121532554) else .finite 121532554),
       some (if pyGt (pyAbs (.finite 25017604)) (.finite 1000)
             then pyDivMillion (.finite 25017604) else .finite 25017604)) ∧
     (∀ q : ℚ, pyDivMillion (.finite q) = .finite (q / 1000000)) ∧
     normalize_lng_lat "121532554" "25017604" =
      (some (.finite (121.532554 : ℚ)), some (.finite (25.017604 : ℚ)))) :=
  ⟨by decide, by decide,
   C2_magnitude_rescale "121532554" "25017604" _ _ (by decide) (by decide)⟩

/-- C3 counterexample: the pair ("2000000000", "25") normalizes to the
present pair (2000, 25), yet the strings "2000" and "25" — which parse to
exactly that output pair — normalize to (0.002, 25): re-applying
normalization to its own output changes it, so normalization is not
idempotent on all present outputs. -/
theorem C3_counterexample :
    normalize_lng_lat "2000000000" "25" =
      (some (.finite 2000), some (.finite 25)) ∧
    parse_float "2000" = some (.finite 2000) ∧
    parse_float "25" = some (.finite 25) ∧
    normalize_lng_lat "2000" "25" =
      (some (.finite (mkRat 1 500)), some (.finite 25)) ∧
    PyFloat.finite (mkRat 1 500) ≠ PyFloat.finite 2000 := by
  decide

/-- C3 amended: re-normalization fixes an output pair provided both output
magnitudes are at most 1000 (as with any already-decimal coordinate pair
such as (121.5, 25.0)); outputs above 1000 are rescaled again. -/
theorem C3_idempotent_within_threshold (xr yr xr2 yr2 : String) (a b : PyFloat)
    (h : normalize_lng_lat xr yr = (some a, some b))
    (ha : pyLe (pyAbs a) (.finite 1000) = true)
    (hb : pyLe (pyAbs b) (.finite 1000) = true)
    (hx2 : parse_float xr2 = some a) (hy2 : parse_float yr2 = some b) :
    normalize_lng_lat xr2 yr2 = (some a, some b) := by
  have hga : pyLt (.finite 1000) (pyAbs a) = false :=
    pyLt_eq_false_of_pyLe _ _ ha
  have hgb : pyLt (.finite 1000) (pyAbs b) = false :=
    pyLt_eq_false_of_pyLe _ _ hb
  unfold normalize_lng_lat
  rw [hx2, hy2]
  simp [pyGt, hga, hgb]

theorem C3_idempotent_within_threshold_witness :
    (normalize_lng_lat "121.5" "25.0" =
        (some (.finite (mkRat 243 2)), some (.finite 25)) ∧
      pyLe (pyAbs (.finite (mkRat 243 2))) (.finite 1000) = true ∧
      pyLe (pyAbs (.finite 25)) (.finite 1000) = true ∧
      parse_float "121.5" = some (.finite (mkRat 243 2)) ∧
      parse_float "25.0" = some (.finite 25)) ∧
    normalize_lng_lat "121.5" "25.0" =
      (some (.finite (mkRat 243 2)), some (.finite 25)) :=
  ⟨⟨by decide, by decide, by decide, by decide, by decide⟩,
   C3_idempotent_within_threshold "121.5" "25.0" "121.5" "25.0" _ _
     (by decide) (by decide) (by decide) (by decide) (by decide)⟩

/-- C4 counterexample: `export_csv` is annotated `-> None` and has no
`return` statement, so no `RunStatistics` value is returned to the caller
(here shown on the empty stream); the counters are only printed. -/
theorem C4_counterexample : (export_run [] true true).retval = none := rfl

/-- C4 amended: after the stream is exhausted the run's four counters are
reported in the printed summary — with total equal to the number of records
seen and written equal to the number of data rows emitted — but the
function returns `None`, not a `RunStatistics` value. -/
theorem C4_counters_reported_not_returned (stores : List Store)
    (ot incl : Bool) :
    (export_run stores ot incl).retval = none ∧
    (export_run stores ot incl).printedStats = (export_csv stores ot).1 ∧
    (export_run stores ot incl).printedStats.total = stores.length ∧
    (export_run stores ot incl).printedStats.written
      = (export_run stores ot incl).output.dataRows.length := by
  refine ⟨rfl, rfl, ?_, ?_⟩
  · show (export_csv stores ot).1.total = _
    unfold export_csv
    rw [export_foldl_total]
    simp
  · show (export_csv stores ot).1.written = _
    have h1 : (export_csv stores ot).1.written
        = (stores.filter (keptRec ot)).length := by
      unfold export_csv
      rw [export_foldl_written]
      simp
    have h2 : (export_run stores ot incl).output.dataRows.length
        = (stores.filter (keptRec ot)).length := by
      show ((export_csv stores ot).2.map (rowCells incl)).length = _
      rw [List.length_map]
      unfold export_csv
      rw [export_foldl_rows]
      simp
    rw [h1, h2]

/-- C5: the suspicious-coordinate counter counts exactly the records that
are not skipped by the filter, have both coordinate cells non-empty, and
whose value pair falls outside latitude [20, 27] or longitude [118, 123.5]
(`suspiciousRec`).  A float-parse failure at that stage (the swallowed
`except`) is the wildcard branch of `suspiciousCheck`, which increments
neither counter; it is unreachable because the branch only runs on
non-empty cells. -/
theorem C5_suspicious_counter (stores : List Store) (ot : Bool) :
    (export_csv stores ot).1.suspicious_coord
      = (stores.filter (suspiciousRec ot)).length := by
  unfold export_csv
  rw [export_foldl_suspicious]
  simp

/-- C6: the audit row's has-target-service-tag boolean is true iff the raw
service/title text contains the marker "02廁所" (false in particular for an
absent or empty field, since an absent key reads as ""), and this same
boolean is the sole filter the export loop applies when `only_toilets` is
true (no filtering happens when it is false). -/
theorem C6_service_tag_predicate (store : Store)
    (acc : RunStatistics × List (PrismaRow × DebugRow)) :
    (build_location_row store).2.has_toilet_service_tag
        = strContains (store "storeimagetitle") toiletMarker ∧
    strContains "" toiletMarker = false ∧
    (exportStep true acc store).2 =
      (if (build_location_row store).2.has_toilet_service_tag
       then acc.2 ++ [build_location_row store] else acc.2) ∧
    (exportStep false acc store).2 = acc.2 ++ [build_location_row store] := by
  have hflag : (build_location_row store).2.has_toilet_service_tag
      = strContains (pyStrip (store "storeimagetitle")) toiletMarker := rfl
  refine ⟨?_, by decide, ?_, ?_⟩
  · rw [hflag, strContains_pyStrip_marker]
  · rw [exportStep_rows]
    have hk : keptRec true store
        = (build_location_row store).2.has_toilet_service_tag := by
      unfold keptRec
      have hs : strContains (build_location_row store).2.services toiletMarker
          = (build_location_row store).2.has_toilet_service_tag := rfl
      rw [hs]
      cases (build_location_row store).2.has_toilet_service_tag <;> rfl
    rw [hk]
    cases (build_location_row store).2.has_toilet_service_tag <;> simp
  · rw [exportStep_rows]
    have hk : keptRec false store = true := rfl
    rw [hk]
    rfl

/-- C7: with the same input and the same filter flag, toggling the audit
flag changes neither the number of data rows nor any canonical-field value:
each audit-enabled row is the audit-free row with the audit columns
appended (its first 13 cells — the canonical columns — are the whole
audit-free row), the printed statistics agree, and only the header's
trailing audit columns differ. -/
theorem C7_audit_flag_invariance (stores : List Store) (ot : Bool) :
    (export_run stores ot true).output.dataRows.length
        = (export_run stores ot false).output.dataRows.length ∧
    ((export_run stores ot true).output.dataRows).map (fun r => r.take 13)
        = (export_run stores ot false).output.dataRows ∧
    (export_run stores ot true).printedStats
        = (export_run stores ot false).printedStats ∧
    (export_run stores ot true).output.header
        = prisma_fields ++ debug_fields ∧
    (export_run stores ot false).output.header = prisma_fields := by
  refine ⟨?_, ?_, rfl, rfl, List.append_nil _⟩
  · show ((export_csv stores ot).2.map (rowCells true)).length
        = ((export_csv stores ot).2.map (rowCells false)).length
    rw [List.length_map, List.length_map]
  · show ((export_csv stores ot).2.map (rowCells true)).map
          (fun r => r.take 13)
        = (export_csv stores ot).2.map (rowCells false)
    rw [List.map_map]
    apply List.map_congr_left
    intro p _
    show (rowCells true p).take 13 = rowCells false p
    have hlen : (prismaCells p.1).length = 13 := rfl
    show (prismaCells p.1 ++ debugCells p.2).take 13 = rowCells false p
    rw [← hlen, List.take_left]
    show prismaCells p.1 = prismaCells p.1 ++ []
    rw [List.append_nil]

/-- C8: on a raw field mapping lacking every recognized key (each read
yields ""), the record mapper succeeds and produces the fully-default
canonical row — name exactly "7-ELEVEN" with no trailing space, empty
description, type "TOILET", empty coordinates and floor, all facility
flags false — and an audit row with a false service-tag boolean. -/
theorem C8_default_row (store : Store)
    (h : store "poiid" = "" ∧ store "poiname" = "" ∧ store "address" = "" ∧
         store "telno" = "" ∧ store "op_time" = "" ∧
         store "storeimagetitle" = "" ∧ store "x" = "" ∧ store "y" = "") :
    build_location_row store =
      ({ name := "7-ELEVEN", description := "", typ := "TOILET", lat := none,
         lng := none, floor := "", hasTissue := false, hasDryer := false,
         hasSeat := false, hasDiaperTable := false, hasWaterDispenser := false,
         hasAutoDoor := false, hasHandrail := false },
       { source := "7-ELEVEN iMapSDKOutput", poiid := "", poiname := "",
         address := "", telno := "", op_time := "", services := "",
         x_raw := "", y_raw := "", has_toilet_service_tag := false }) := by
  obtain ⟨h1, h2, h3, h4, h5, h6, h7, h8⟩ := h
  unfold build_location_row
  rw [h1, h2, h3, h4, h5, h6, h7, h8]
  decide

theorem C8_default_row_witness :
    (emptyStore "poiid" = "" ∧ emptyStore "poiname" = "" ∧
     emptyStore "address" = "" ∧ emptyStore "telno" = "" ∧
     emptyStore "op_time" = "" ∧ emptyStore "storeimagetitle" = "" ∧
     emptyStore "x" = "" ∧ emptyStore "y" = "") ∧
    build_location_row emptyStore =
      ({ name := "7-ELEVEN", description := "", typ := "TOILET", lat := none,
         lng := none, floor := "", hasTissue := false, hasDryer := false,
         hasSeat := false, hasDiaperTable := false, hasWaterDispenser := false,
         hasAutoDoor := false, hasHandrail := false },
       { source := "7-ELEVEN iMapSDKOutput", poiid := "", poiname := "",
         address := "", telno := "", op_time := "", services := "",
         x_raw := "", y_raw := "", has_toilet_service_tag := false }) :=
  ⟨⟨rfl, rfl, rfl, rfl, rfl, rfl, rfl, rfl⟩,
   C8_default_row emptyStore ⟨rfl, rfl, rfl, rfl, rfl, rfl, rfl, rfl⟩⟩

/-- C9: on an input stream with zero target elements the export completes,
the output holds exactly the header row (canonical columns, plus audit
columns iff requested) and no data rows, and all four counters are zero. -/
theorem C9_zero_records (ot incl : Bool) :
    export_run [] ot incl =
      { output :=
          { header := prisma_fields ++ (if incl then debug_fields else []),
            dataRows := [] },
        printedStats :=
          { total := 0, written := 0, missing_coord := 0,
            suspicious_coord := 0 },
        retval := none } := rfl

/-- C10: CPython `float` accepts non-numeral spellings such as "inf",
"nan" and scientific notation "1e3", so `_parse_float` returns a present
value for them; the normalizer can therefore emit a present non-finite
coordinate, which the export bookkeeping counts as suspicious (not
missing), shown on a record with X = "inf", Y = "25". -/
theorem C10_nonfinite_parse :
    parse_float "inf" = some .inf ∧
    parse_float "nan" = some .nan ∧
    parse_float "1e3" = some (.finite 1000) ∧
    isFiniteF .inf = false ∧
    isFiniteF .nan = false ∧
    normalize_lng_lat "inf" "25" = (some .inf, some (.finite 25)) ∧
    (export_csv [infCoordStore] false).1 =
      { total := 1, written := 1, missing_coord := 0,
        suspicious_coord := 1 } := by
  decide
